import Mathlib

/-! Theme descriptor of `tailwind.config.js`.

The repository is one declarative configuration object.  It is embedded here
as a term of an untyped JavaScript value type (`JsValue`), field by field and
in source order, and the structural properties of the descriptor are stated
over that term.

String-level checks (CSS lengths, keyframe selectors, glob syntax, shadow
layers) are written as structurally recursive functions over `List Char`, so
that every property can be evaluated on the embedded object.
-/

namespace TailwindConfig

/-! ## JavaScript values -/

/-- The JavaScript values that an object literal of the configuration can hold:
string literals, number literals, array literals, object literals (ordered
key/value lists) and `require('<module>')` calls. -/
inductive JsValue where
  | str (s : String)
  | num (n : Int)
  | arr (items : List JsValue)
  | obj (fields : List (String × JsValue))
  | requireCall (module : String)

namespace JsValue

/-- The own properties of an object literal, in source order; a value that is
not an object has none. -/
def entries : JsValue → List (String × JsValue)
  | obj fields => fields
  | _ => []

/-- The property names of an object literal, in source order. -/
def keys (v : JsValue) : List String :=
  v.entries.map Prod.fst

/-- Property access `v[k]`; `none` stands for `undefined`. -/
def get? (v : JsValue) (k : String) : Option JsValue :=
  v.entries.lookup k

/-- The elements of an array literal; a value that is not an array has none. -/
def elements : JsValue → List JsValue
  | arr items => items
  | _ => []

/-- The text of a string literal. -/
def asString? : JsValue → Option String
  | str s => some s
  | _ => none

/-- Whether the value is a string. -/
def isString : JsValue → Bool
  | str _ => true
  | _ => false

/-- Whether the value is a number holding an integer. -/
def isInteger : JsValue → Bool
  | num _ => true
  | _ => false

/-- Whether the value is an object literal. -/
def isObject : JsValue → Bool
  | obj _ => true
  | _ => false

/-- Whether the value is an array literal. -/
def isArray : JsValue → Bool
  | arr _ => true
  | _ => false

/-- Follows a chain of property accesses `v.k₁.k₂...`. -/
def path? : JsValue → List String → Option JsValue
  | v, [] => some v
  | v, k :: ks =>
    match v.get? k with
    | some w => path? w ks
    | none => none

end JsValue

open JsValue

/-! ## The configuration object (`src/tailwind.config.js`) -/

/-- Mirrors `content`, lines 3-6. -/
def content : JsValue :=
  arr [
    str "./index.html",
    str "./src/**/*.\x7bjs,ts,jsx,tsx\x7d"
  ]

/-- Mirrors `theme.extend.colors`, lines 9-83. -/
def colors : JsValue :=
  obj [
    ("background", str "var(--color-background)"),
    ("foreground", str "var(--color-foreground)"),
    ("border", str "var(--color-border)"),
    ("input", str "var(--color-input)"),
    ("ring", str "var(--color-ring)"),
    ("card", obj [
      ("DEFAULT", str "var(--color-card)"),
      ("foreground", str "var(--color-card-foreground)")]),
    ("popover", obj [
      ("DEFAULT", str "var(--color-popover)"),
      ("foreground", str "var(--color-popover-foreground)")]),
    ("muted", obj [
      ("DEFAULT", str "var(--color-muted)"),
      ("foreground", str "var(--color-muted-foreground)")]),
    ("primary", obj [
      ("DEFAULT", str "var(--color-primary)"),
      ("foreground", str "var(--color-primary-foreground)")]),
    ("secondary", obj [
      ("DEFAULT", str "var(--color-secondary)"),
      ("foreground", str "var(--color-secondary-foreground)")]),
    ("accent", obj [
      ("DEFAULT", str "var(--color-accent)"),
      ("foreground", str "var(--color-accent-foreground)")]),
    ("success", obj [
      ("DEFAULT", str "var(--color-success)"),
      ("foreground", str "var(--color-success-foreground)")]),
    ("warning", obj [
      ("DEFAULT", str "var(--color-warning)"),
      ("foreground", str "var(--color-warning-foreground)")]),
    ("error", obj [
      ("DEFAULT", str "var(--color-error)"),
      ("foreground", str "var(--color-error-foreground)")]),
    ("destructive", obj [
      ("DEFAULT", str "var(--color-destructive)"),
      ("foreground", str "var(--color-destructive-foreground)")]),
    ("maritime-navy", str "var(--color-maritime-navy)"),
    ("maritime-teal", str "var(--color-maritime-teal)"),
    ("maritime-turquoise", str "var(--color-maritime-turquoise)"),
    ("maritime-surface", str "var(--color-maritime-surface)"),
    ("text-primary", str "var(--color-text-primary)"),
    ("text-secondary", str "var(--color-text-secondary)")
  ]

/-- Mirrors `theme.extend.fontFamily`, lines 84-88. -/
def fontFamily : JsValue :=
  obj [
    ("sans", arr [str "Inter", str "sans-serif"]),
    ("mono", arr [str "JetBrains Mono", str "monospace"]),
    ("data", arr [str "JetBrains Mono", str "monospace"])
  ]

/-- Mirrors `theme.extend.fontSize`, lines 89-100. -/
def fontSize : JsValue :=
  obj [
    ("xs", arr [str "0.75rem", obj [("lineHeight", str "1rem")]]),
    ("sm", arr [str "0.875rem", obj [("lineHeight", str "1.25rem")]]),
    ("base", arr [str "1rem", obj [("lineHeight", str "1.5rem")]]),
    ("lg", arr [str "1.125rem", obj [("lineHeight", str "1.75rem")]]),
    ("xl", arr [str "1.25rem", obj [("lineHeight", str "1.75rem")]]),
    ("2xl", arr [str "1.5rem", obj [("lineHeight", str "2rem")]]),
    ("3xl", arr [str "1.875rem", obj [("lineHeight", str "2.25rem")]]),
    ("4xl", arr [str "2.25rem", obj [("lineHeight", str "2.5rem")]]),
    ("5xl", arr [str "3rem", obj [("lineHeight", str "1")]]),
    ("6xl", arr [str "3.75rem", obj [("lineHeight", str "1")]])
  ]

/-- Mirrors `theme.extend.borderRadius`, lines 101-105. -/
def borderRadius : JsValue :=
  obj [
    ("lg", str "8px"),
    ("md", str "6px"),
    ("sm", str "4px")
  ]

/-- Mirrors `theme.extend.boxShadow`, lines 106-110. -/
def boxShadow : JsValue :=
  obj [
    ("maritime", str "0 1px 3px rgba(0, 0, 0, 0.1), 0 1px 2px rgba(0, 0, 0, 0.06)"),
    ("maritime-lg", str "0 4px 6px rgba(0, 0, 0, 0.07), 0 2px 4px rgba(0, 0, 0, 0.06)"),
    ("maritime-xl", str "0 10px 25px rgba(0, 0, 0, 0.1), 0 4px 6px rgba(0, 0, 0, 0.05)")
  ]

/-- Mirrors `theme.extend.animation`, lines 111-115. -/
def animation : JsValue :=
  obj [
    ("fade-in", str "fadeIn 300ms ease-out"),
    ("slide-down", str "slideDown 200ms ease-out"),
    ("pulse-critical", str "pulseCritical 1s ease-in-out infinite")
  ]

/-- Mirrors `theme.extend.keyframes`, lines 116-129. -/
def keyframes : JsValue :=
  obj [
    ("fadeIn", obj [
      ("0%", obj [("opacity", str "0")]),
      ("100%", obj [("opacity", str "1")])]),
    ("slideDown", obj [
      ("0%", obj [("opacity", str "0"), ("transform", str "translateY(-10px)")]),
      ("100%", obj [("opacity", str "1"), ("transform", str "translateY(0)")])]),
    ("pulseCritical", obj [
      ("0%, 100%", obj [("opacity", str "1")]),
      ("50%", obj [("opacity", str "0.7")])])
  ]

/-- Mirrors `theme.extend.spacing`, lines 130-134. -/
def spacing : JsValue :=
  obj [
    ("18", str "4.5rem"),
    ("88", str "22rem"),
    ("128", str "32rem")
  ]

/-- Mirrors `theme.extend.zIndex`, lines 135-141. -/
def zIndex : JsValue :=
  obj [
    ("60", str "60"),
    ("70", str "70"),
    ("80", str "80"),
    ("90", str "90"),
    ("100", str "100")
  ]

/-- Mirrors `theme.extend`, lines 8-142. -/
def extend : JsValue :=
  obj [
    ("colors", colors),
    ("fontFamily", fontFamily),
    ("fontSize", fontSize),
    ("borderRadius", borderRadius),
    ("boxShadow", boxShadow),
    ("animation", animation),
    ("keyframes", keyframes),
    ("spacing", spacing),
    ("zIndex", zIndex)
  ]

/-- Mirrors `theme`, lines 7-143. -/
def theme : JsValue :=
  obj [("extend", extend)]

/-- Mirrors `plugins`, lines 144-147. -/
def plugins : JsValue :=
  arr [
    requireCall "@tailwindcss/forms",
    requireCall "tailwindcss-animate"
  ]

/-- The default export of `tailwind.config.js`, lines 2-148. -/
def config : JsValue :=
  obj [
    ("content", content),
    ("theme", theme),
    ("plugins", plugins)
  ]

/-- The elements of the `content` array of the exported configuration. -/
def contentGlobs : List JsValue :=
  match config.get? "content" with
  | some v => v.elements
  | none => []

/-- The own properties of the object found at `theme.extend.<group>` of the
exported configuration; empty when the path does not lead to an object. -/
def tokens (group : String) : List (String × JsValue) :=
  match config.path? ["theme", "extend", group] with
  | some v => v.entries
  | none => []

/-! ## Character-level helpers -/

/-- CSS whitespace. -/
def isSpace (c : Char) : Bool :=
  c = ' ' || c = '\t' || c = '\n' || c = '\r'

/-- ASCII decimal digit. -/
def isDigit (c : Char) : Bool :=
  '0' ≤ c && c ≤ '9'

/-- Removes leading and trailing whitespace. -/
def trim (cs : List Char) : List Char :=
  ((cs.dropWhile isSpace).reverse.dropWhile isSpace).reverse

/-- The first whitespace-separated word of a text. -/
def firstWord (cs : List Char) : List Char :=
  (cs.dropWhile isSpace).takeWhile (fun c => !isSpace c)

/-- The keyframe name that an animation shorthand value references: the first
whitespace-separated word of the string; `none` for a non-string value. -/
def referencedKeyframe (v : JsValue) : Option String :=
  v.asString?.map (fun s => String.mk (firstWord s.data))

/-! ## CSS numbers and lengths -/

/-- An unsigned CSS number: digits, optionally followed by a dot and at least
one digit, or a dot followed by at least one digit. -/
def isUnsignedNumber (cs : List Char) : Bool :=
  match cs.dropWhile isDigit with
  | [] => !(cs.takeWhile isDigit).isEmpty
  | '.' :: frac => !frac.isEmpty && frac.all isDigit
  | _ => false

/-- A CSS number with an optional sign. -/
def isNumber : List Char → Bool
  | '+' :: cs => isUnsignedNumber cs
  | '-' :: cs => isUnsignedNumber cs
  | cs => isUnsignedNumber cs

/-- The characters a CSS number is made of. -/
def isNumberChar (c : Char) : Bool :=
  isDigit c || c = '.' || c = '+' || c = '-'

/-- The CSS length units. -/
def lengthUnits : List String :=
  ["em", "rem", "ex", "ch", "vw", "vh", "vmin", "vmax", "px", "cm", "mm", "in", "pt", "pc", "Q"]

/-- A CSS length value: a number followed by a length unit. -/
def isCssLength (cs : List Char) : Bool :=
  isNumber (cs.takeWhile isNumberChar) &&
    lengthUnits.contains (String.mk (cs.dropWhile isNumberChar))

/-- Whether a value is a string holding a CSS length. -/
def isLengthValue : Option String → Bool
  | some s => isCssLength s.data
  | none => false

/-- The value of a decimal numeral (a non-empty run of ASCII digits), most
significant digit first, given the value of the digits read so far. -/
def decimalAux : List Char → Nat → Option Nat
  | [], acc => some acc
  | c :: cs, acc => if isDigit c then decimalAux cs (10 * acc + (c.toNat - 48)) else none

/-- The integer a decimal numeral denotes, with an optional minus sign. -/
def decimalInteger? : List Char → Option Int
  | [] => none
  | ['-'] => none
  | '-' :: cs => (decimalAux cs 0).map (fun n => - (n : Int))
  | cs => (decimalAux cs 0).map (fun n => (n : Int))

/-- The integer that a string value spells out as a decimal numeral. -/
def integerText? (v : JsValue) : Option Int :=
  v.asString?.bind (fun s => decimalInteger? s.data)

/-! ## Font sizes -/

/-- The first element of a font-size pair, when it is a string. -/
def baseSize (v : JsValue) : Option String :=
  (v.elements.get? 0).bind asString?

/-- The second element of a font-size pair. -/
def sizeInfo (v : JsValue) : Option JsValue :=
  v.elements.get? 1

/-- The `lineHeight` field of the second element of a font-size pair. -/
def lineHeightField (v : JsValue) : Option JsValue :=
  (sizeInfo v).bind (fun info => info.get? "lineHeight")

/-- The `lineHeight` field of the second element of a font-size pair, when it
is a string. -/
def lineHeight (v : JsValue) : Option String :=
  (lineHeightField v).bind asString?

/-! ## Font families -/

/-- The generic font family keywords of CSS. -/
def genericFamilies : List String :=
  ["serif", "sans-serif", "monospace", "cursive", "fantasy", "system-ui",
   "ui-serif", "ui-sans-serif", "ui-monospace", "ui-rounded", "math", "emoji", "fangsong"]

/-- The last entry of a font fallback sequence, when it is a string. -/
def lastFallback (v : JsValue) : Option String :=
  v.elements.getLast?.bind asString?

/-! ## Keyframe selectors -/

/-- Splits a text at every occurrence of a separator character; `cur` holds
the current piece, reversed. -/
def splitAux (sep : Char) : List Char → List Char → List (List Char)
  | [], cur => [cur.reverse]
  | c :: cs, cur =>
    if c = sep then cur.reverse :: splitAux sep cs [] else splitAux sep cs (c :: cur)

/-- Splits a text at every occurrence of a separator character. -/
def splitAt (sep : Char) (cs : List Char) : List (List Char) :=
  splitAux sep cs []

/-- A percentage: an unsigned number followed by `%`. -/
def isPercentage (cs : List Char) : Bool :=
  match cs.reverse with
  | '%' :: rev => isUnsignedNumber rev.reverse
  | _ => false

/-- One keyframe selector: a percentage or one of the keywords `from`, `to`. -/
def isStopSelector (cs : List Char) : Bool :=
  cs = "from".data || cs = "to".data || isPercentage cs

/-- A keyframe stop key: a comma-separated list of keyframe selectors. -/
def isStopKey (key : String) : Bool :=
  (splitAt ',' key.data).all (fun part => isStopSelector (trim part))

/-- A non-empty object literal. -/
def isNonEmptyObject : JsValue → Bool
  | obj (_ :: _) => true
  | _ => false

/-! ## Shadow layers -/

/-- Splits a text at the separator characters that stand outside parentheses;
`depth` counts the open parentheses and `cur` holds the current piece,
reversed. -/
def splitTopAux (sep : Char → Bool) : List Char → Nat → List Char → List (List Char)
  | [], _, cur => [cur.reverse]
  | c :: cs, depth, cur =>
    if c = '(' then splitTopAux sep cs (depth + 1) (c :: cur)
    else if c = ')' then splitTopAux sep cs (depth - 1) (c :: cur)
    else if depth = 0 && sep c then cur.reverse :: splitTopAux sep cs 0 []
    else splitTopAux sep cs depth (c :: cur)

/-- Splits a text at the separator characters that stand outside parentheses. -/
def splitTop (sep : Char → Bool) (cs : List Char) : List (List Char) :=
  splitTopAux sep cs 0 []

/-- The layers of a shadow value: the pieces between its top-level commas.  A
value that is not a string has no layers. -/
def shadowLayers (v : JsValue) : List (List Char) :=
  match v with
  | str s => splitTop (fun c => c = ',') s.data
  | _ => []

/-- The whitespace-separated components of one shadow layer. -/
def layerParts (layer : List Char) : List (List Char) :=
  (splitTop isSpace layer).filter (fun part => !part.isEmpty)

/-- An offset, blur or spread component: a length, or a unitless number such
as `0`; the keyword `inset` is not a color either. -/
def isGeometryPart (part : List Char) : Bool :=
  isNumber part || isCssLength part || part = "inset".data

/-- The color components of one shadow layer: those that are not geometry. -/
def layerColors (layer : List Char) : List (List Char) :=
  (layerParts layer).filter (fun part => !isGeometryPart part)

/-- Removes the given leading characters from a text, when the text starts
with them. -/
def stripLeading? : List Char → List Char → Option (List Char)
  | [], cs => some cs
  | _ :: _, [] => none
  | p :: ps, c :: cs => if p = c then stripLeading? ps cs else none

/-- The arguments of a functional notation `name(a, b, ...)`, trimmed. -/
def functionArgs? (name : String) (cs : List Char) : Option (List (List Char)) :=
  match stripLeading? (name.data ++ ['(']) cs with
  | none => none
  | some rest =>
    match rest.reverse with
    | ')' :: inner => some ((splitAt ',' inner.reverse).map trim)
    | _ => none

/-- An `rgba(...)` color with four numeric arguments, the fourth being the
alpha component. -/
def isRgbaWithAlpha (cs : List Char) : Bool :=
  match functionArgs? "rgba" cs with
  | some args => args.length = 4 && args.all isNumber
  | none => false

/-- Whether a shadow layer has exactly one color and that color carries an
alpha component. -/
def layerColorHasAlpha (layer : List Char) : Bool :=
  match layerColors layer with
  | [color] => isRgbaWithAlpha color
  | _ => false

/-! ## Glob patterns -/

/-- Whether the braces of a pattern are balanced; `depth` counts the open
braces. -/
def bracesBalancedAux : List Char → Nat → Bool
  | [], depth => depth = 0
  | c :: cs, depth =>
    if c = '\x7b' then bracesBalancedAux cs (depth + 1)
    else if c = '\x7d' then
      match depth with
      | 0 => false
      | d + 1 => bracesBalancedAux cs d
    else bracesBalancedAux cs depth

/-- Whether the braces of a pattern are balanced. -/
def bracesBalanced (cs : List Char) : Bool :=
  bracesBalancedAux cs 0

/-- Whether no brace group of a pattern has an empty alternative: inside
braces, a comma or closing brace never directly follows an opening brace or a
comma.  `depth` counts the open braces, `prev` is the previous character. -/
def bracesNonEmptyAux : List Char → Nat → Option Char → Bool
  | [], _, _ => true
  | c :: cs, depth, prev =>
    let emptyBefore := prev = some '\x7b' || prev = some ','
    if c = '\x7b' then bracesNonEmptyAux cs (depth + 1) (some c)
    else if c = '\x7d' then !emptyBefore && bracesNonEmptyAux cs (depth - 1) (some c)
    else if c = ',' && 0 < depth then !emptyBefore && bracesNonEmptyAux cs depth (some c)
    else bracesNonEmptyAux cs depth (some c)

/-- Whether no brace group of a pattern has an empty alternative. -/
def bracesNonEmpty (cs : List Char) : Bool :=
  bracesNonEmptyAux cs 0 none

/-- Whether a path segment contains two consecutive stars. -/
def hasDoubleStar : List Char → Bool
  | '*' :: '*' :: _ => true
  | _ :: cs => hasDoubleStar cs
  | [] => false

/-- Whether `**` occurs in a pattern only as a whole path segment. -/
def doubleStarWholeSegment (cs : List Char) : Bool :=
  (splitAt '/' cs).all (fun seg => !hasDoubleStar seg || seg = "**".data)

/-- A syntactically valid glob pattern: not empty, braces balanced and without
empty alternatives, and `**` only as a whole path segment. -/
def isValidGlob (v : JsValue) : Bool :=
  match v with
  | str s =>
    !s.data.isEmpty && bracesBalanced s.data && bracesNonEmpty s.data &&
      doubleStarWholeSegment s.data
  | _ => false

/-! ## Color references -/

/-- The strings a color token holds: its own value for a flat token, the
values of its sub-keys for a nested group. -/
def colorStrings (v : JsValue) : List String :=
  match v with
  | str s => [s]
  | obj fields => fields.filterMap (fun kv => kv.2.asString?)
  | _ => []

/-- Every string held by the color tokens, in source order. -/
def allColorStrings : List String :=
  (tokens "colors").flatMap (fun kv => colorStrings kv.2)

/-! ## The token groups of the exported configuration -/

theorem tokens_colors : tokens "colors" = colors.entries := rfl

theorem tokens_fontFamily : tokens "fontFamily" = fontFamily.entries := rfl

theorem tokens_fontSize : tokens "fontSize" = fontSize.entries := rfl

theorem tokens_boxShadow : tokens "boxShadow" = boxShadow.entries := rfl

theorem tokens_animation : tokens "animation" = animation.entries := rfl

theorem tokens_keyframes : tokens "keyframes" = keyframes.entries := rfl

theorem tokens_zIndex : tokens "zIndex" = zIndex.entries := rfl

theorem contentGlobs_eq : contentGlobs = content.elements := rfl

theorem animation_keys :
    (tokens "animation").map Prod.fst = ["fade-in", "slide-down", "pulse-critical"] := by
  decide

theorem keyframes_keys :
    (tokens "keyframes").map Prod.fst = ["fadeIn", "slideDown", "pulseCritical"] := by
  decide

theorem fontFamily_keys : (tokens "fontFamily").map Prod.fst = ["sans", "mono", "data"] := by
  decide

theorem fontSize_keys :
    (tokens "fontSize").map Prod.fst =
      ["xs", "sm", "base", "lg", "xl", "2xl", "3xl", "4xl", "5xl", "6xl"] := by
  decide

theorem boxShadow_keys :
    (tokens "boxShadow").map Prod.fst = ["maritime", "maritime-lg", "maritime-xl"] := by
  decide

theorem zIndex_keys : (tokens "zIndex").map Prod.fst = ["60", "70", "80", "90", "100"] := by
  decide

theorem colors_keys :
    (tokens "colors").map Prod.fst =
      ["background", "foreground", "border", "input", "ring", "card", "popover", "muted",
       "primary", "secondary", "accent", "success", "warning", "error", "destructive",
       "maritime-navy", "maritime-teal", "maritime-turquoise", "maritime-surface",
       "text-primary", "text-secondary"] := by
  decide

/-! ## The string-level checks tell good from bad inputs -/

theorem isCssLength_samples :
    isCssLength "0.75rem".data = true ∧ isCssLength "8px".data = true ∧
      isCssLength "1".data = false ∧ isCssLength "rem".data = false ∧
      isCssLength "1.rem".data = false ∧ isCssLength "1 rem".data = false ∧
      isCssLength "1foo".data = false ∧ isCssLength "".data = false := by
  decide

theorem decimalInteger_samples :
    decimalInteger? "100".data = some 100 ∧ decimalInteger? "-7".data = some (-7) ∧
      decimalInteger? "1px".data = none ∧ decimalInteger? "".data = none ∧
      decimalInteger? "auto".data = none := by
  decide

theorem isStopKey_samples :
    isStopKey "0%, 100%" = true ∧ isStopKey "from" = true ∧ isStopKey "12.5%" = true ∧
      isStopKey "0%,, 100%" = false ∧ isStopKey "" = false ∧ isStopKey "50" = false ∧
      isStopKey "start" = false := by
  decide

theorem layerColorHasAlpha_samples :
    layerColorHasAlpha "0 1px 3px rgba(0,0,0,.5)".data = true ∧
      layerColorHasAlpha "0 1px 3px rgb(0, 0, 0)".data = false ∧
      layerColorHasAlpha "0 1px 3px rgba(0, 0, 0)".data = false ∧
      layerColorHasAlpha "0 1px 3px #fff".data = false ∧
      layerColorHasAlpha "0 1px 3px".data = false := by
  decide

theorem splitTop_keeps_parentheses :
    (splitTop (fun c => c = ',') "a(b, c), d".data).map String.mk = ["a(b, c)", " d"] := by
  decide

theorem isValidGlob_samples :
    isValidGlob (JsValue.str "a/**/b.\x7bjs,ts\x7d") = true ∧
      isValidGlob (JsValue.str "a,b") = true ∧
      isValidGlob (JsValue.str "") = false ∧
      isValidGlob (JsValue.str "./src/**/*.\x7b\x7d") = false ∧
      isValidGlob (JsValue.str "./src/**/*.\x7bjs,\x7d") = false ∧
      isValidGlob (JsValue.str "./src/**/*.\x7bjs") = false ∧
      isValidGlob (JsValue.str "./src/**/*.js\x7d") = false ∧
      isValidGlob (JsValue.str "./src/a**/*.js") = false ∧
      isValidGlob (JsValue.str "./src/***/*.js") = false ∧
      isValidGlob (JsValue.num 3) = false := by
  decide

theorem allColorStrings_length : allColorStrings.length = 31 := by
  decide

/-! ## Animations and keyframes -/

/-- Claim C1: for every token of `theme.extend.animation`, the keyframe name it
references (the first whitespace-separated word of its value string) is a key
of `theme.extend.keyframes`. -/
theorem animation_references_defined_keyframe :
    ∀ kv ∈ tokens "animation",
      ∃ name, referencedKeyframe kv.2 = some name ∧ name ∈ (tokens "keyframes").map Prod.fst := by
  decide

theorem animation_references_defined_keyframe_witness :
    referencedKeyframe (JsValue.str "fadeIn 300ms ease-out") = some "fadeIn" ∧
      ∃ name, referencedKeyframe (Prod.snd ("fade-in", JsValue.str "fadeIn 300ms ease-out"))
          = some name ∧ name ∈ (tokens "keyframes").map Prod.fst :=
  ⟨by decide, animation_references_defined_keyframe
    ("fade-in", JsValue.str "fadeIn 300ms ease-out") (List.Mem.head _)⟩

/-- Claim C5: for every keyframe token of `theme.extend.keyframes`, every stop
key is a percentage, `from`/`to`, or a comma-separated list of these, and every
stop maps to a non-empty style-property mapping. -/
theorem keyframe_stops_wellformed :
    ∀ kf ∈ tokens "keyframes", ∀ stop ∈ kf.2.entries,
      isStopKey stop.1 = true ∧ isNonEmptyObject stop.2 = true := by
  decide

theorem keyframe_stops_wellformed_witness :
    isStopKey "0%" = true ∧
      isNonEmptyObject (JsValue.obj [("opacity", JsValue.str "0")]) = true :=
  keyframe_stops_wellformed
    ("fadeIn", JsValue.obj [
      ("0%", JsValue.obj [("opacity", JsValue.str "0")]),
      ("100%", JsValue.obj [("opacity", JsValue.str "1")])])
    (List.Mem.head _)
    ("0%", JsValue.obj [("opacity", JsValue.str "0")])
    (List.Mem.head _)

/-! ## Colors -/

/-- Claim C2: for every color token of `theme.extend.colors` whose value is a
nested mapping, `DEFAULT` is present whenever `foreground` is present, and
`DEFAULT` is present in any case. -/
theorem nested_color_defines_default :
    ∀ kv ∈ tokens "colors", kv.2.isObject = true →
      ((kv.2.get? "foreground").isSome = true → (kv.2.get? "DEFAULT").isSome = true) ∧
        (kv.2.get? "DEFAULT").isSome = true := by
  decide

theorem nested_color_defines_default_witness :
    (((JsValue.obj [
        ("DEFAULT", JsValue.str "var(--color-card)"),
        ("foreground", JsValue.str "var(--color-card-foreground)")]).get? "foreground").isSome
        = true →
      ((JsValue.obj [
        ("DEFAULT", JsValue.str "var(--color-card)"),
        ("foreground", JsValue.str "var(--color-card-foreground)")]).get? "DEFAULT").isSome
        = true) ∧
      ((JsValue.obj [
        ("DEFAULT", JsValue.str "var(--color-card)"),
        ("foreground", JsValue.str "var(--color-card-foreground)")]).get? "DEFAULT").isSome
        = true :=
  nested_color_defines_default
    ("card", JsValue.obj [
      ("DEFAULT", JsValue.str "var(--color-card)"),
      ("foreground", JsValue.str "var(--color-card-foreground)")])
    (List.get?_mem (rfl : (tokens "colors").get? 5 = some _))
    rfl

/-- Claim C10: every color token of `theme.extend.colors` is a reference to the
variable named after the token itself: a flat key `k` holds exactly
`var(--color-k)`; a nested group `g` has exactly the sub-keys `DEFAULT` and
`foreground`, holding `var(--color-g)` and `var(--color-g-foreground)`; no token
is of another shape, and no two tokens hold the same variable reference. -/
theorem color_tokens_reference_own_variable :
    (∀ kv ∈ tokens "colors",
      (kv.2.isString = true ∨ kv.2.isObject = true) ∧
      (kv.2.isString = true → kv.2.asString? = some ("var(--color-" ++ kv.1 ++ ")")) ∧
      (kv.2.isObject = true →
        kv.2.keys = ["DEFAULT", "foreground"] ∧
        (kv.2.get? "DEFAULT").bind JsValue.asString? = some ("var(--color-" ++ kv.1 ++ ")") ∧
        (kv.2.get? "foreground").bind JsValue.asString?
          = some ("var(--color-" ++ kv.1 ++ "-foreground)"))) ∧
      allColorStrings.Nodup := by
  decide

theorem color_tokens_reference_own_variable_witness :
    (JsValue.str "var(--color-background)").asString?
      = some ("var(--color-" ++ "background" ++ ")") :=
  ((color_tokens_reference_own_variable.1
    ("background", JsValue.str "var(--color-background)") (List.Mem.head _)).2.1) rfl

/-! ## Font families and font sizes -/

/-- Claim C6: for every font family token of `theme.extend.fontFamily`, the
fallback sequence is non-empty and its last entry is a CSS generic family
keyword. -/
theorem fontFamily_ends_with_generic :
    ∀ kv ∈ tokens "fontFamily",
      0 < kv.2.elements.length ∧
        ∃ name, lastFallback kv.2 = some name ∧ name ∈ genericFamilies := by
  decide

theorem fontFamily_ends_with_generic_witness :
    0 < (JsValue.arr [JsValue.str "Inter", JsValue.str "sans-serif"]).elements.length ∧
      ∃ name, lastFallback (JsValue.arr [JsValue.str "Inter", JsValue.str "sans-serif"])
        = some name ∧ name ∈ genericFamilies :=
  fontFamily_ends_with_generic
    ("sans", JsValue.arr [JsValue.str "Inter", JsValue.str "sans-serif"]) (List.Mem.head _)

/-- Claim C8: for every font-size token of `theme.extend.fontSize`, the value
is a two-element array whose second element is an object that has a
`lineHeight` field. -/
theorem fontSize_pair_has_lineHeight :
    ∀ kv ∈ tokens "fontSize",
      kv.2.isArray = true ∧ kv.2.elements.length = 2 ∧
        (sizeInfo kv.2).map JsValue.isObject = some true ∧
        (lineHeightField kv.2).isSome = true := by
  decide

theorem fontSize_pair_has_lineHeight_witness :
    (JsValue.arr [JsValue.str "0.75rem",
        JsValue.obj [("lineHeight", JsValue.str "1rem")]]).elements.length = 2 ∧
      (lineHeightField (JsValue.arr [JsValue.str "0.75rem",
        JsValue.obj [("lineHeight", JsValue.str "1rem")]])).isSome = true :=
  ⟨(fontSize_pair_has_lineHeight
      ("xs", JsValue.arr [JsValue.str "0.75rem",
        JsValue.obj [("lineHeight", JsValue.str "1rem")]]) (List.Mem.head _)).2.1,
   (fontSize_pair_has_lineHeight
      ("xs", JsValue.arr [JsValue.str "0.75rem",
        JsValue.obj [("lineHeight", JsValue.str "1rem")]]) (List.Mem.head _)).2.2.2⟩

/-- Claim C3 as stated fails: the `5xl` token has the line-height `1`, which is
a number without a unit and so no length value; hence not every font-size
token has a base-size and a line-height that are both length values. -/
theorem fontSize_5xl_lineHeight_not_length :
    ((tokens "fontSize").lookup "5xl").bind lineHeight = some "1" ∧
      isCssLength "1".data = false ∧
      ¬ ∀ kv ∈ tokens "fontSize",
          isLengthValue (baseSize kv.2) = true ∧ isLengthValue (lineHeight kv.2) = true := by
  decide

/-- Claim C3, amended: for every font-size token of `theme.extend.fontSize`,
the base-size is a CSS length value (a number followed by a length unit); the
line-height is a CSS length value for `xs` through `4xl`, and for `5xl` and
`6xl` it is the unitless number `1`. -/
theorem fontSize_lengths_or_unitless_lineHeight :
    ∀ kv ∈ tokens "fontSize",
      isLengthValue (baseSize kv.2) = true ∧
        (if kv.1 = "5xl" ∨ kv.1 = "6xl" then lineHeight kv.2 = some "1"
         else isLengthValue (lineHeight kv.2) = true) := by
  decide

theorem fontSize_lengths_or_unitless_lineHeight_witness :
    isLengthValue (baseSize (JsValue.arr [JsValue.str "3rem",
        JsValue.obj [("lineHeight", JsValue.str "1")]])) = true ∧
      lineHeight (JsValue.arr [JsValue.str "3rem",
        JsValue.obj [("lineHeight", JsValue.str "1")]]) = some "1" :=
  fontSize_lengths_or_unitless_lineHeight
    ("5xl", JsValue.arr [JsValue.str "3rem", JsValue.obj [("lineHeight", JsValue.str "1")]])
    (List.get?_mem (rfl : (tokens "fontSize").get? 8 = some _))

/-! ## Z-index -/

/-- Claim C4 as stated fails: the `60` token of `theme.extend.zIndex` holds the
string `'60'`, not a number; hence not every z-index value is an integer. -/
theorem zIndex_60_is_string :
    ((tokens "zIndex").lookup "60").bind JsValue.asString? = some "60" ∧
      ((tokens "zIndex").lookup "60").map JsValue.isInteger = some false ∧
      ¬ ∀ kv ∈ tokens "zIndex", kv.2.isInteger = true := by
  decide

/-- Claim C4, amended: for every token of `theme.extend.zIndex`, the value is a
string, not a number, and its text is the decimal numeral of an integer. -/
theorem zIndex_values_are_integer_strings :
    ∀ kv ∈ tokens "zIndex",
      kv.2.isString = true ∧ kv.2.isInteger = false ∧
        (integerText? kv.2).isSome = true := by
  decide

theorem zIndex_values_are_integer_strings_witness :
    (JsValue.str "60").isString = true ∧ (JsValue.str "60").isInteger = false ∧
      (integerText? (JsValue.str "60")).isSome = true :=
  zIndex_values_are_integer_strings ("60", JsValue.str "60") (List.Mem.head _)

/-- The z-index strings spell out the integers 60, 70, 80, 90 and 100, each
the same numeral as its key. -/
theorem zIndex_integer_values :
    (tokens "zIndex").map (fun kv => integerText? kv.2) =
        [some 60, some 70, some 80, some 90, some 100] ∧
      ∀ kv ∈ tokens "zIndex", kv.2.asString? = some kv.1 := by
  decide

/-! ## Shadows -/

/-- Claim C7: for every shadow token of `theme.extend.boxShadow`, splitting the
value at its top-level commas gives at least one layer, and the color of every
layer is an `rgba(...)` color with four arguments. -/
theorem boxShadow_layers_have_alpha :
    ∀ kv ∈ tokens "boxShadow",
      0 < (shadowLayers kv.2).length ∧
        ∀ layer ∈ shadowLayers kv.2, layerColorHasAlpha layer = true := by
  decide

theorem boxShadow_layers_have_alpha_witness :
    layerColorHasAlpha "0 1px 3px rgba(0, 0, 0, 0.1)".data = true :=
  (boxShadow_layers_have_alpha
    ("maritime",
      JsValue.str "0 1px 3px rgba(0, 0, 0, 0.1), 0 1px 2px rgba(0, 0, 0, 0.06)")
    (List.Mem.head _)).2 "0 1px 3px rgba(0, 0, 0, 0.1)".data (by decide)

/-- The layers of the three shadow tokens, as split at the top-level commas. -/
theorem boxShadow_layers :
    (tokens "boxShadow").map (fun kv => (shadowLayers kv.2).map String.mk) =
      [["0 1px 3px rgba(0, 0, 0, 0.1)", " 0 1px 2px rgba(0, 0, 0, 0.06)"],
       ["0 4px 6px rgba(0, 0, 0, 0.07)", " 0 2px 4px rgba(0, 0, 0, 0.06)"],
       ["0 10px 25px rgba(0, 0, 0, 0.1)", " 0 4px 6px rgba(0, 0, 0, 0.05)"]] := by
  decide

/-! ## Content globs -/

/-- Claim C9: the content glob list is non-empty, and every entry is a
syntactically valid glob pattern (braces balanced and without empty
alternatives, `**` only as a whole path segment). -/
theorem content_globs_valid :
    0 < contentGlobs.length ∧ ∀ g ∈ contentGlobs, isValidGlob g = true := by
  decide

theorem content_globs_valid_witness :
    isValidGlob (JsValue.str "./index.html") = true :=
  content_globs_valid.2 (JsValue.str "./index.html") (List.Mem.head _)

end TailwindConfig
